import Mathlib

/-!
Verification of the BricKuber cube-manipulation library
(`Projects/BricKuber/brickuber_lib.py`).

The development shallowly embeds the core of the library:

* the opposite-face function `OF` and the orientation triple `CCO`;
* the move-token parsing inside `Move` (`parseDeg`, `parseFace`);
* the six-way dispatch of `Move` over the current orientation, recorded as
  a list of emitted physical actions plus the updated orientation;
* the motor-level state transformers `run_to_position`, `grab`, `release`,
  `flip`, `spin` acting on an explicit `RobotState` (the Python object's
  mutable fields plus the last commanded motor positions);
* the blocking poll loop of `run_to_position`, modelled with explicit
  fuel over a trace of encoder readings (the 10 ms sleeps between polls
  are abstracted into one poll per step).

Python's `ValueError` in the constructor and the `UnboundLocalError` that
a face-letter-free token provokes in `Move` are modelled by `Option`
results (`none` = the call raises).
-/

namespace BricKuberLib

/-- Opposite face. Source: `OF(f)`, lines 129-132: `if f < 3: return f + 3`
else `return f - 3`. -/
def OF (f : Nat) : Nat :=
  if f < 3 then f + 3 else f - 3

/-- The orientation triple `CCO = [side U, side F, side R]`, embedded as a
structure with one field per list slot. Source: line 135. -/
structure Orientation where
  u : Nat
  f : Nat
  r : Nat
deriving DecidableEq, Repr

/-- Initial orientation. Source: `CCO = [0, 1, 2]`, line 135. -/
def CCO : Orientation := ⟨0, 1, 2⟩

/-- An orientation triple is valid when the three faces are in range,
pairwise distinct and pairwise non-opposite. -/
def validCCO (o : Orientation) : Prop :=
  o.u < 6 ∧ o.f < 6 ∧ o.r < 6 ∧
  o.u ≠ o.f ∧ o.u ≠ o.r ∧ o.f ≠ o.r ∧
  o.u ≠ OF o.f ∧ o.u ≠ OF o.r ∧ o.f ≠ OF o.r

instance (o : Orientation) : Decidable (validCCO o) := by
  unfold validCCO; infer_instance

/-- The physical actions the dispatcher can issue: the grip actions and a
turntable spin with its degrees and overshoot arguments. -/
inductive Action where
  | flip : Action
  | release : Action
  | grab : Action
  | spin : Int → Int → Action
deriving DecidableEq, Repr

/-- The apostrophe character of the move notation (code point 39). -/
def apos : Char := Char.ofNat 39

/-- Degrees parsing of `Move`. Source lines 139-144: start at -90, set 90
when the token holds an apostrophe, else -180 when it holds a 2. A
`cmd.find(c) != -1` test on a one-character needle is membership. -/
def parseDeg (cmd : List Char) : Int :=
  if cmd.contains apos then 90
  else if cmd.contains '2' then -180
  else -90

/-- Face parsing of `Move`. Source lines 146-157: the first of the letters
U, F, R, D, B, L found in the token picks faces 0..5; `none` when no
letter occurs (the Python local `FaceToTurn` stays unassigned). -/
def parseFace (cmd : List Char) : Option Nat :=
  if cmd.contains 'U' then some 0
  else if cmd.contains 'F' then some 1
  else if cmd.contains 'R' then some 2
  else if cmd.contains 'D' then some 3
  else if cmd.contains 'B' then some 4
  else if cmd.contains 'L' then some 5
  else none

/-- The six-way dispatch of `Move` on the parsed face. Source lines
159-221. Each branch returns the actions it issues, in order, and the
orientation after its sequence of `CCO[i] = ...` assignments, which are
replayed here step by step through intermediate triples. A face matching
no branch falls through with no action and no update (no `else` in the
source chain). -/
def dispatch (cco : Orientation) (FaceToTurn : Nat) : List Action × Orientation :=
  if FaceToTurn = cco.u then
    -- flip twice; CCO[0] = OF(CCO[0]); CCO[1] = OF(CCO[1])
    ([Action.flip, Action.flip], ⟨OF cco.u, OF cco.f, cco.r⟩)
  else if FaceToTurn = cco.f then
    -- release, spin 180; CCO[1] = OF(CCO[1]); CCO[2] = OF(CCO[2])
    let c1 : Orientation := ⟨cco.u, OF cco.f, OF cco.r⟩
    -- flip; tmp = CCO[0]; CCO[0] = CCO[1]; CCO[1] = OF(tmp)
    let tmp := c1.u
    let c2 : Orientation := ⟨c1.f, OF tmp, c1.r⟩
    ([Action.release, Action.spin 180 0, Action.flip], c2)
  else if FaceToTurn = cco.r then
    -- release, spin -90; tmp = CCO[2]; CCO[2] = CCO[1]; CCO[1] = OF(tmp)
    let tmp := cco.r
    let c1 : Orientation := ⟨cco.u, OF tmp, cco.f⟩
    -- flip; tmp = CCO[0]; CCO[0] = CCO[1]; CCO[1] = OF(tmp)
    let tmp2 := c1.u
    let c2 : Orientation := ⟨c1.f, OF tmp2, c1.r⟩
    ([Action.release, Action.spin (-90) 0, Action.flip], c2)
  else if FaceToTurn = OF cco.u then
    -- target is bottom: do nothing
    ([], cco)
  else if FaceToTurn = OF cco.f then
    -- flip; tmp = CCO[0]; CCO[0] = CCO[1]; CCO[1] = OF(tmp)
    let tmp := cco.u
    ([Action.flip], ⟨cco.f, OF tmp, cco.r⟩)
  else if FaceToTurn = OF cco.r then
    -- release, spin 90; tmp = CCO[1]; CCO[1] = CCO[2]; CCO[2] = OF(tmp)
    let tmp := cco.f
    let c1 : Orientation := ⟨cco.u, cco.r, OF tmp⟩
    -- flip; tmp = CCO[0]; CCO[0] = CCO[1]; CCO[1] = OF(tmp)
    let tmp2 := c1.u
    let c2 : Orientation := ⟨c1.f, OF tmp2, c1.r⟩
    ([Action.release, Action.spin 90 0, Action.flip], c2)
  else
    ([], cco)

/-- `Move(cmd)`, source lines 138-223, at the dispatcher level: parse the
degrees (`DegreesToTurnFace`) and the face, dispatch on the face, then
always `grab()` and `spin(DegreesToTurnFace, RecoverFace)` with
`RecoverFace = 22`. A token with no face letter makes the Python body
raise `UnboundLocalError` at the first use of `FaceToTurn`: modelled as
`none`. -/
def Move (cco : Orientation) (cmd : List Char) : Option (List Action × Orientation) :=
  let DegreesToTurnFace := parseDeg cmd
  match parseFace cmd with
  | none => none
  | some FaceToTurn =>
    let p := dispatch cco FaceToTurn
    some (p.1 ++ [Action.grab, Action.spin DegreesToTurnFace 22], p.2)

/-- Orientations reachable from the initial `CCO = [0, 1, 2]` by
successfully dispatched moves. -/
inductive Reachable : Orientation → Prop where
  | start : Reachable CCO
  | step : ∀ (o : Orientation) (cmd : List Char) (acts : List Action)
      (o2 : Orientation), Reachable o → Move o cmd = some (acts, o2) →
      Reachable o2

/-- Per-robot-style constants set by `__init__`, source lines 30-61. -/
structure Calibration where
  TurnTablePinion : Nat
  TurnTableGear : Nat
  MOTOR_GRAB_POSITION_HOME : Int
  MOTOR_GRAB_POSITION_REST : Int
  MOTOR_GRAB_POSITION_FLIP_PUSH : Int
  MOTOR_GRAB_POSITION_GRAB : Int
  MOTOR_GRAB_POSITION_FLIP : Int
  MOTOR_GRAB_SPEED_GRAB : Nat
  MOTOR_GRAB_SPEED_FLIP : Nat
  MOTOR_GRAB_SPEED_REST : Nat
deriving DecidableEq, Repr

/-- Constants of the `robot_style == "NXT1"` branch, source lines 32-45. -/
def NXT1cal : Calibration :=
  ⟨24, 56, 0, -35, -90, -130, -240, 400, 600, 400⟩

/-- Constants of the `robot_style == "EV3"` branch, source lines 46-59. -/
def EV3cal : Calibration :=
  ⟨12, 36, 0, -35, -90, -130, -240, 400, 600, 400⟩

/-- Constructor dispatch on `robot_style`, source lines 30-61: any style
other than the two known ones raises `ValueError` (modelled as `none`). -/
def init (robot_style : String) : Option Calibration :=
  if robot_style = "NXT1" then some NXT1cal
  else if robot_style = "EV3" then some EV3cal
  else none

/-- The mutable state an instance carries: the orientation triple, the
cumulative turntable target, and (abstracting the BrickPi3 handle) the
grab motor's speed limit and the last commanded position of each motor.
Positions are rationals because the turntable position is computed with
Python 3 true division. -/
structure RobotState where
  CCO : Orientation
  TurnTableTarget : Int
  grabSpeedLimit : Nat
  grabPosition : Rat
  turnPosition : Rat
deriving DecidableEq, Repr

/-- State effect of `run_to_position(port, position)`, source lines 85-90:
command the motor on the port (0 = grab, 1 = turn) to the position. The
blocking poll until the encoder is within tolerance is modelled separately
by `run_to_position_poll`. -/
def run_to_position (s : RobotState) (port : Nat) (position : Rat) : RobotState :=
  if port = 0 then ⟨s.CCO, s.TurnTableTarget, s.grabSpeedLimit, position, s.turnPosition⟩
  else ⟨s.CCO, s.TurnTableTarget, s.grabSpeedLimit, s.grabPosition, position⟩

/-- State effect of `BP.set_motor_limits` on the grab motor. -/
def set_motor_limits_grab (s : RobotState) (speed : Nat) : RobotState :=
  ⟨s.CCO, s.TurnTableTarget, speed, s.grabPosition, s.turnPosition⟩

/-- `grab()`, source lines 103-106: set the grab speed limit, run to the
grab position (the 0.2 s settle pause has no state effect). -/
def grab (c : Calibration) (s : RobotState) : RobotState :=
  let s1 := set_motor_limits_grab s c.MOTOR_GRAB_SPEED_GRAB
  run_to_position s1 0 (c.MOTOR_GRAB_POSITION_GRAB : Rat)

/-- `release()`, source lines 109-111. -/
def release (c : Calibration) (s : RobotState) : RobotState :=
  let s1 := set_motor_limits_grab s c.MOTOR_GRAB_SPEED_REST
  run_to_position s1 0 (c.MOTOR_GRAB_POSITION_REST : Rat)

/-- `flip(release=False)`, source lines 114-126: flip-push, grab, switch
to the flip speed, flip, flip-push, optionally release. -/
def flip (c : Calibration) (s : RobotState) (rel : Bool) : RobotState :=
  let s1 := run_to_position s 0 (c.MOTOR_GRAB_POSITION_FLIP_PUSH : Rat)
  let s2 := grab c s1
  let s3 := set_motor_limits_grab s2 c.MOTOR_GRAB_SPEED_FLIP
  let s4 := run_to_position s3 0 (c.MOTOR_GRAB_POSITION_FLIP : Rat)
  let s5 := run_to_position s4 0 (c.MOTOR_GRAB_POSITION_FLIP_PUSH : Rat)
  if rel then release c s5 else s5

/-- `spin(deg, overshoot=0)`, source lines 93-100: negate the overshoot
when the degrees are negative, subtract `deg + overshoot` from the
cumulative target and seek `target * gear / pinion`; when the overshoot is
nonzero, add it back and seek the corrected position. -/
def spin (c : Calibration) (s : RobotState) (deg : Int) (overshoot : Int) : RobotState :=
  let ov := if deg < 0 then -overshoot else overshoot
  let t1 := s.TurnTableTarget - (deg + ov)
  let s1 : RobotState := ⟨s.CCO, t1, s.grabSpeedLimit, s.grabPosition, s.turnPosition⟩
  let s2 := run_to_position s1 1 ((t1 : Rat) * (c.TurnTableGear : Rat) / (c.TurnTablePinion : Rat))
  if ov ≠ 0 then
    let t2 := s2.TurnTableTarget + ov
    let s3 : RobotState := ⟨s2.CCO, t2, s2.grabSpeedLimit, s2.grabPosition, s2.turnPosition⟩
    run_to_position s3 1 ((t2 : Rat) * (c.TurnTableGear : Rat) / (c.TurnTablePinion : Rat))
  else s2

/-- A sequence of completed `spin` calls, each a `(degrees, overshoot)`
pair, applied in order. -/
def spins (c : Calibration) (s : RobotState) (calls : List (Int × Int)) : RobotState :=
  match calls with
  | [] => s
  | p :: rest => spins c (spin c s p.1 p.2) rest

/-- The state right after `home_all` zeroes the turntable target
(source line 81), with the initial orientation. -/
def initState : RobotState := ⟨CCO, 0, 0, 0, 0⟩

/-- The poll loop of `run_to_position`, source lines 87-90, over a trace
`e` of encoder readings: reading `k` is checked, and while it is outside
`[position - tolerance, position + tolerance]` the loop sleeps 10 ms and
takes the next reading. The fuel argument caps the number of polls so the
loop is a total function; the source has no such cap. Returns the index
of the reading on which the call returned, or `none` when the fuel ran
out with every polled reading out of tolerance. -/
def run_to_position_loop (e : Nat → Int) (position tolerance : Int) :
    Nat → Nat → Option Nat
  | 0, _ => none
  | fuel + 1, k =>
    if e k > position + tolerance ∨ e k < position - tolerance then
      run_to_position_loop e position tolerance fuel (k + 1)
    else some k

/-- `run_to_position`'s blocking wait, polling from the first reading. -/
def run_to_position_poll (e : Nat → Int) (position tolerance : Int) (fuel : Nat) : Option Nat :=
  run_to_position_loop e position tolerance fuel 0

/-- A face parsed from a token is one of the six codes 0..5. -/
theorem parseFace_lt (cmd : List Char) (ft : Nat) (h : parseFace cmd = some ft) :
    ft < 6 := by
  unfold parseFace at h
  repeat' split at h
  all_goals first
    | exact Option.noConfusion h
    | (injection h with h2; omega)

set_option synthInstance.maxSize 20000 in
set_option maxHeartbeats 1000000 in
/-- The dispatch preserves validity of the orientation triple, checked by
enumerating the 6^4 combinations of faces. -/
theorem dispatch_preserves : ∀ u, u < 6 → ∀ f, f < 6 → ∀ r, r < 6 →
    ∀ ft, ft < 6 → validCCO ⟨u, f, r⟩ → validCCO (dispatch ⟨u, f, r⟩ ft).2 := by
  decide

set_option synthInstance.maxSize 20000 in
set_option maxHeartbeats 1000000 in
/-- On a valid orientation the six dispatch conditions cover every face
code, and each branch yields the transition-table row, checked by
enumeration. -/
theorem dispatch_cases : ∀ u, u < 6 → ∀ f, f < 6 → ∀ r, r < 6 →
    ∀ ft, ft < 6 → validCCO ⟨u, f, r⟩ →
    (ft = u ∨ ft = f ∨ ft = r ∨ ft = OF u ∨ ft = OF f ∨ ft = OF r) ∧
    (ft = u → dispatch ⟨u, f, r⟩ ft =
      ([Action.flip, Action.flip], ⟨OF u, OF f, r⟩)) ∧
    (ft = f → dispatch ⟨u, f, r⟩ ft =
      ([Action.release, Action.spin 180 0, Action.flip], ⟨OF f, OF u, OF r⟩)) ∧
    (ft = r → dispatch ⟨u, f, r⟩ ft =
      ([Action.release, Action.spin (-90) 0, Action.flip], ⟨OF r, OF u, f⟩)) ∧
    (ft = OF u → dispatch ⟨u, f, r⟩ ft = ([], ⟨u, f, r⟩)) ∧
    (ft = OF f → dispatch ⟨u, f, r⟩ ft = ([Action.flip], ⟨f, OF u, r⟩)) ∧
    (ft = OF r → dispatch ⟨u, f, r⟩ ft =
      ([Action.release, Action.spin 90 0, Action.flip], ⟨r, OF u, OF f⟩)) := by
  decide

/-- A successful `Move` keeps the orientation triple valid. -/
theorem Move_preserves_validCCO (o : Orientation) (cmd : List Char)
    (acts : List Action) (o2 : Orientation) (hv : validCCO o)
    (hm : Move o cmd = some (acts, o2)) : validCCO o2 := by
  cases hp : parseFace cmd with
  | none => simp [Move, hp] at hm
  | some ft =>
    simp only [Move, hp, Option.some.injEq, Prod.mk.injEq] at hm
    obtain ⟨u, f, r⟩ := o
    have hpr := dispatch_preserves u hv.1 f hv.2.1 r hv.2.2.1 ft
      (parseFace_lt cmd ft hp) hv
    rw [← hm.2]
    exact hpr

/-- Each `spin` call nets the cumulative target down by exactly the
degrees argument, whatever the overshoot. -/
theorem spin_target (c : Calibration) (s : RobotState) (deg ov : Int) :
    (spin c s deg ov).TurnTableTarget = s.TurnTableTarget - deg := by
  simp only [spin, run_to_position]
  split <;> split <;> simp <;> omega

/-- Claim C5: for every face code `f` in 0..5, the opposite-face function
satisfies `OF f = (f + 3) % 6`, is an involution, and is fixed-point
free. -/
theorem OF_opposite_spec : ∀ face, face < 6 →
    OF face = (face + 3) % 6 ∧ OF (OF face) = face ∧ OF face ≠ face := by
  decide

/-- Claim C5 witness at the concrete face 4. -/
theorem OF_opposite_spec_witness :
    OF 4 = (4 + 3) % 6 ∧ OF (OF 4) = 4 ∧ OF 4 ≠ 4 :=
  OF_opposite_spec 4 (by decide)

/-- Claim C4: the rotation degrees of a token are 90 when it holds an
apostrophe (even together with a 2), else -180 when it holds a 2, else
-90; and the target face is the first of the letters U, F, R, D, B, L the
token holds, mapped to 0..5 in that priority order. -/
theorem parse_token_spec (cmd : List Char) :
    (cmd.contains apos = true → parseDeg cmd = 90) ∧
    (cmd.contains apos = true → cmd.contains '2' = true → parseDeg cmd = 90) ∧
    (cmd.contains apos = false → cmd.contains '2' = true → parseDeg cmd = -180) ∧
    (cmd.contains apos = false → cmd.contains '2' = false → parseDeg cmd = -90) ∧
    (cmd.contains 'U' = true → parseFace cmd = some 0) ∧
    (cmd.contains 'U' = false → cmd.contains 'F' = true → parseFace cmd = some 1) ∧
    (cmd.contains 'U' = false → cmd.contains 'F' = false →
      cmd.contains 'R' = true → parseFace cmd = some 2) ∧
    (cmd.contains 'U' = false → cmd.contains 'F' = false →
      cmd.contains 'R' = false → cmd.contains 'D' = true →
      parseFace cmd = some 3) ∧
    (cmd.contains 'U' = false → cmd.contains 'F' = false →
      cmd.contains 'R' = false → cmd.contains 'D' = false →
      cmd.contains 'B' = true → parseFace cmd = some 4) ∧
    (cmd.contains 'U' = false → cmd.contains 'F' = false →
      cmd.contains 'R' = false → cmd.contains 'D' = false →
      cmd.contains 'B' = false → cmd.contains 'L' = true →
      parseFace cmd = some 5) := by
  refine ⟨?_, ?_, ?_, ?_, ?_, ?_, ?_, ?_, ?_, ?_⟩ <;>
    intros <;> simp_all [parseDeg, parseFace]

/-- Claim C4 witness: the token R-apostrophe-2 turns by 90 degrees on
face 2. -/
theorem parse_token_spec_witness :
    parseDeg ['R', apos, '2'] = 90 ∧ parseFace ['R', apos, '2'] = some 2 :=
  ⟨(parse_token_spec ['R', apos, '2']).1 (by decide),
   (parse_token_spec ['R', apos, '2']).2.2.2.2.2.2.1 (by decide) (by decide)
     (by decide)⟩

/-- Claim C1: on a valid orientation, a token that parses to a face falls
in one of the six cases determined by comparing the face against
`U, F, R, OF U, OF F, OF R`; each case performs exactly the listed
physical actions in order, applies exactly that case's orientation
update, and always finishes with `grab` then `spin(degrees, 22)`. -/
theorem Move_dispatch_table (o : Orientation) (hv : validCCO o)
    (cmd : List Char) (ft : Nat) (hp : parseFace cmd = some ft) :
    (ft = o.u ∨ ft = o.f ∨ ft = o.r ∨ ft = OF o.u ∨ ft = OF o.f ∨ ft = OF o.r) ∧
    (ft = o.u → Move o cmd = some
      ([Action.flip, Action.flip, Action.grab, Action.spin (parseDeg cmd) 22],
       ⟨OF o.u, OF o.f, o.r⟩)) ∧
    (ft = o.f → Move o cmd = some
      ([Action.release, Action.spin 180 0, Action.flip, Action.grab,
        Action.spin (parseDeg cmd) 22], ⟨OF o.f, OF o.u, OF o.r⟩)) ∧
    (ft = o.r → Move o cmd = some
      ([Action.release, Action.spin (-90) 0, Action.flip, Action.grab,
        Action.spin (parseDeg cmd) 22], ⟨OF o.r, OF o.u, o.f⟩)) ∧
    (ft = OF o.u → Move o cmd = some
      ([Action.grab, Action.spin (parseDeg cmd) 22], o)) ∧
    (ft = OF o.f → Move o cmd = some
      ([Action.flip, Action.grab, Action.spin (parseDeg cmd) 22],
       ⟨o.f, OF o.u, o.r⟩)) ∧
    (ft = OF o.r → Move o cmd = some
      ([Action.release, Action.spin 90 0, Action.flip, Action.grab,
        Action.spin (parseDeg cmd) 22], ⟨o.r, OF o.u, OF o.f⟩)) := by
  obtain ⟨u, f, r⟩ := o
  have hft := parseFace_lt cmd ft hp
  have H := dispatch_cases u hv.1 f hv.2.1 r hv.2.2.1 ft hft hv
  refine ⟨H.1, ?_, ?_, ?_, ?_, ?_, ?_⟩ <;> intro h
  · simp only [Move, hp]; rw [H.2.1 h]; rfl
  · simp only [Move, hp]; rw [H.2.2.1 h]; rfl
  · simp only [Move, hp]; rw [H.2.2.2.1 h]; rfl
  · simp only [Move, hp]; rw [H.2.2.2.2.1 h]; rfl
  · simp only [Move, hp]; rw [H.2.2.2.2.2.1 h]; rfl
  · simp only [Move, hp]; rw [H.2.2.2.2.2.2 h]; rfl

/-- Claim C1 witness: the token R from the initial orientation issues
release, spin -90, flip, then grab and spin -90 with overshoot 22, and
the orientation becomes 5, 3, 1. -/
theorem Move_dispatch_table_witness :
    Move ⟨0, 1, 2⟩ ['R'] = some
      ([Action.release, Action.spin (-90) 0, Action.flip, Action.grab,
        Action.spin (-90) 22], ⟨5, 3, 1⟩) :=
  (Move_dispatch_table ⟨0, 1, 2⟩ (by decide) ['R'] 2 (by decide)).2.2.2.1 rfl

/-- Claim C2: every orientation reachable from the initial one by
dispatched moves has pairwise distinct, pairwise non-opposite entries,
and every successful `Move` preserves this invariant. -/
theorem CCO_invariant :
    (∀ o : Orientation, Reachable o → validCCO o) ∧
    (∀ (o : Orientation) (cmd : List Char) (acts : List Action)
      (o2 : Orientation), validCCO o → Move o cmd = some (acts, o2) →
      validCCO o2) := by
  constructor
  · intro o h
    induction h with
    | start => decide
    | step o cmd acts o2 hr hm ih => exact Move_preserves_validCCO o cmd acts o2 ih hm
  · exact fun o cmd acts o2 => Move_preserves_validCCO o cmd acts o2

/-- Claim C2 witness: the invariant holds at the initial orientation and
after the move R from it. -/
theorem CCO_invariant_witness : validCCO ⟨5, 3, 1⟩ :=
  CCO_invariant.2 ⟨0, 1, 2⟩ ['R']
    [Action.release, Action.spin (-90) 0, Action.flip, Action.grab,
     Action.spin (-90) 22] ⟨5, 3, 1⟩ (by decide) (by decide)

set_option synthInstance.maxSize 20000 in
set_option maxHeartbeats 1000000 in
/-- Claim C9: on a valid orientation the six faces `U, F, R, OF U, OF F,
OF R` cover all six face codes, and for each target face exactly one of
the six dispatch conditions holds, so the chain never falls through. -/
theorem dispatch_exhaustive : ∀ u, u < 6 → ∀ f, f < 6 → ∀ r, r < 6 →
    validCCO ⟨u, f, r⟩ → ∀ ft, ft < 6 →
    (ft = u ∨ ft = f ∨ ft = r ∨ ft = OF u ∨ ft = OF f ∨ ft = OF r) ∧
    ([decide (ft = u), decide (ft = f), decide (ft = r), decide (ft = OF u),
      decide (ft = OF f), decide (ft = OF r)].count true = 1) := by
  decide

/-- Claim C9 witness at the initial orientation and target face 4. -/
theorem dispatch_exhaustive_witness :
    ((4 : Nat) = 0 ∨ (4 : Nat) = 1 ∨ (4 : Nat) = 2 ∨ (4 : Nat) = OF 0 ∨
      (4 : Nat) = OF 1 ∨ (4 : Nat) = OF 2) ∧
    ([decide ((4 : Nat) = 0), decide ((4 : Nat) = 1), decide ((4 : Nat) = 2),
      decide ((4 : Nat) = OF 0), decide ((4 : Nat) = OF 1),
      decide ((4 : Nat) = OF 2)].count true = 1) :=
  dispatch_exhaustive 0 (by decide) 1 (by decide) 2 (by decide) (by decide)
    4 (by decide)

/-- Claim C6 counterexample: a token with no face letter does not make
`Move` dispatch on a stale or arbitrary face value; the unassigned local
aborts the call (Python `UnboundLocalError`, modelled as `none`). -/
theorem Move_malformed_counterexample :
    parseFace ['X', '2'] = none ∧ Move ⟨0, 1, 2⟩ ['X', '2'] = none := by
  decide

/-- Claim C6 amended: a token with no recognized face letter leaves the
target face unset and `Move` aborts with an unbound-local error, for
every orientation. -/
theorem Move_malformed (o : Orientation) (cmd : List Char)
    (h : parseFace cmd = none) : Move o cmd = none := by
  simp [Move, h]

/-- Claim C6 witness at the token X. -/
theorem Move_malformed_witness : Move ⟨0, 1, 2⟩ ['X'] = none :=
  Move_malformed ⟨0, 1, 2⟩ ['X'] (by decide)

/-- Claim C3 counterexample: a single completed `spin(90, 22)` from a
zero cumulative target stores -90, not the signed sum 90 of the degrees
arguments. -/
theorem spin_sum_counterexample :
    (spins NXT1cal initState [(90, 22)]).TurnTableTarget = -90 ∧
    (spins NXT1cal initState [(90, 22)]).TurnTableTarget ≠ 90 := by
  decide

/-- Claim C3 amended: after any finite sequence of completed `spin`
calls, the stored cumulative target equals its starting value minus the
signed sum of the degrees arguments (the code decrements by `deg`), and
within each single call the overshoot contribution nets to zero: the
final target does not depend on the overshoot. -/
theorem spin_target_sum : ∀ (c : Calibration) (s : RobotState)
    (calls : List (Int × Int)),
    ((spins c s calls).TurnTableTarget =
      s.TurnTableTarget - (calls.map Prod.fst).sum) ∧
    (∀ deg ov : Int, (spin c s deg ov).TurnTableTarget =
      s.TurnTableTarget - deg) := by
  have main : ∀ (c : Calibration) (calls : List (Int × Int)) (s : RobotState),
      (spins c s calls).TurnTableTarget =
        s.TurnTableTarget - (calls.map Prod.fst).sum := by
    intro c calls
    induction calls with
    | nil => intro s; simp [spins]
    | cons p rest ih =>
      intro s
      simp only [spins, List.map_cons, List.sum_cons]
      rw [ih, spin_target]
      ring
  intro c s calls
  exact ⟨main c calls s, fun deg ov => spin_target c s deg ov⟩

/-- Claim C7: the poll loop of `run_to_position` with tolerance `tol`
returns only on a reading inside `[position - tol, position + tol]`, and
when every reading stays outside that band it returns for no amount of
fuel: the caller blocks indefinitely, there is no timeout. -/
theorem run_to_position_blocking : ∀ (e : Nat → Int)
    (position tolerance : Int) (fuel : Nat),
    (∀ j, run_to_position_poll e position tolerance fuel = some j →
      position - tolerance ≤ e j ∧ e j ≤ position + tolerance) ∧
    ((∀ j, e j > position + tolerance ∨ e j < position - tolerance) →
      run_to_position_poll e position tolerance fuel = none) := by
  have hsome : ∀ (e : Nat → Int) (position tolerance : Int) (fuel k j : Nat),
      run_to_position_loop e position tolerance fuel k = some j →
      position - tolerance ≤ e j ∧ e j ≤ position + tolerance := by
    intro e position tolerance fuel
    induction fuel with
    | zero => intro k j h; exact Option.noConfusion h
    | succ n ih =>
      intro k j h
      unfold run_to_position_loop at h
      split at h
      · exact ih (k + 1) j h
      · rename_i hc
        push_neg at hc
        injection h with h2
        subst h2
        omega
  have hnone : ∀ (e : Nat → Int) (position tolerance : Int),
      (∀ j, e j > position + tolerance ∨ e j < position - tolerance) →
      ∀ fuel k, run_to_position_loop e position tolerance fuel k = none := by
    intro e position tolerance h fuel
    induction fuel with
    | zero => intro k; rfl
    | succ n ih =>
      intro k
      unfold run_to_position_loop
      rw [if_pos (h k)]
      exact ih (k + 1)
  intro e position tolerance fuel
  exact ⟨fun j h => hsome e position tolerance fuel 0 j h,
    fun h => hnone e position tolerance h fuel 0⟩

/-- Claim C7 witness: an encoder already in tolerance returns within the
band, and an encoder stuck at 100 against target 0 never returns. -/
theorem run_to_position_blocking_witness :
    ((0 : Int) - 3 ≤ (0 : Int) ∧ (0 : Int) ≤ 0 + 3) ∧
    run_to_position_poll (fun _ => (100 : Int)) 0 3 5 = none :=
  ⟨(run_to_position_blocking (fun _ => 0) 0 3 1).1 0 (by decide),
   (run_to_position_blocking (fun _ => 100) 0 3 5).2
     (fun j => Or.inl (by decide))⟩

/-- Claim C8 counterexample: the two calibration profiles are not equal
in every configured value: the turntable pinion and gear tooth counts
differ (24 and 56 for NXT1 against 12 and 36 for EV3). -/
theorem calibration_counterexample :
    NXT1cal.TurnTablePinion = 24 ∧ EV3cal.TurnTablePinion = 12 ∧
    NXT1cal.TurnTableGear = 56 ∧ EV3cal.TurnTableGear = 36 ∧
    NXT1cal ≠ EV3cal := by
  decide

/-- Claim C8 amended: the two profiles agree on every grip position and
grip speed but differ in both turntable tooth counts, and any robot
style other than the two known ones raises a configuration error at
construction. -/
theorem calibration_profiles :
    (NXT1cal.MOTOR_GRAB_POSITION_HOME = EV3cal.MOTOR_GRAB_POSITION_HOME ∧
     NXT1cal.MOTOR_GRAB_POSITION_REST = EV3cal.MOTOR_GRAB_POSITION_REST ∧
     NXT1cal.MOTOR_GRAB_POSITION_FLIP_PUSH =
       EV3cal.MOTOR_GRAB_POSITION_FLIP_PUSH ∧
     NXT1cal.MOTOR_GRAB_POSITION_GRAB = EV3cal.MOTOR_GRAB_POSITION_GRAB ∧
     NXT1cal.MOTOR_GRAB_POSITION_FLIP = EV3cal.MOTOR_GRAB_POSITION_FLIP ∧
     NXT1cal.MOTOR_GRAB_SPEED_GRAB = EV3cal.MOTOR_GRAB_SPEED_GRAB ∧
     NXT1cal.MOTOR_GRAB_SPEED_FLIP = EV3cal.MOTOR_GRAB_SPEED_FLIP ∧
     NXT1cal.MOTOR_GRAB_SPEED_REST = EV3cal.MOTOR_GRAB_SPEED_REST) ∧
    NXT1cal.TurnTablePinion ≠ EV3cal.TurnTablePinion ∧
    NXT1cal.TurnTableGear ≠ EV3cal.TurnTableGear ∧
    init "NXT1" = some NXT1cal ∧ init "EV3" = some EV3cal ∧
    (∀ style : String, style ≠ "NXT1" → style ≠ "EV3" → init style = none) := by
  refine ⟨by decide, by decide, by decide, by decide, by decide, ?_⟩
  intro style h1 h2
  unfold init
  rw [if_neg h1, if_neg h2]

/-- Claim C8 witness: the style LEGO is rejected at construction. -/
theorem calibration_profiles_witness : init "LEGO" = none :=
  calibration_profiles.2.2.2.2.2 "LEGO" (by decide) (by decide)

/-- Claim C10: the motor-level operations `run_to_position`, `grab`,
`release` and `flip` touch neither the orientation triple nor the
cumulative turntable target, and `spin` never touches the orientation
triple. -/
theorem frame_effects : ∀ (c : Calibration) (s : RobotState),
    (∀ (port : Nat) (position : Rat),
      (run_to_position s port position).CCO = s.CCO ∧
      (run_to_position s port position).TurnTableTarget = s.TurnTableTarget) ∧
    ((grab c s).CCO = s.CCO ∧
      (grab c s).TurnTableTarget = s.TurnTableTarget) ∧
    ((release c s).CCO = s.CCO ∧
      (release c s).TurnTableTarget = s.TurnTableTarget) ∧
    (∀ rel : Bool, (flip c s rel).CCO = s.CCO ∧
      (flip c s rel).TurnTableTarget = s.TurnTableTarget) ∧
    (∀ deg ov : Int, (spin c s deg ov).CCO = s.CCO) := by
  intro c s
  refine ⟨?_, ?_, ?_, ?_, ?_⟩
  · intro port position
    unfold run_to_position
    split <;> exact ⟨rfl, rfl⟩
  · exact ⟨rfl, rfl⟩
  · exact ⟨rfl, rfl⟩
  · intro rel; cases rel <;> exact ⟨rfl, rfl⟩
  · intro deg ov
    simp only [spin, run_to_position]
    split <;> split <;> simp

end BricKuberLib
